import Mathlib

/-!
Shallow embedding of `kube-client/src/error.rs`: the `Error` and
`DiscoveryError` enums, their `thiserror`-derived `Display` renderings
(the format strings of the `#[error("...")]` attributes) and the
`source()` accessor generated by the `#[source]` attributes.
Cargo-feature gating (`#[cfg(feature = "...")]`) is embedded by indexing
`Error` over a record of feature flags: a gated constructor demands a
proof that its feature is on, so a gated variant of a build without the
feature cannot be constructed or matched at all, mirroring the
build-time rejection of `cfg`.
-/

namespace KubeClient

/-- Modelled from the spec: `kube_core::ErrorResponse`, the structured server
error payload of `Error::Api`; its definition is outside `src/`, so it is
represented abstractly by its two rendered texts, the one `Display` produces
and the one `Debug` produces (the format string uses both, via `{0}` and
`{0:?}`). -/
structure ErrorResponse where
  display : String
  debug : String
  deriving DecidableEq

/-- Modelled from the spec: `hyper::Error`, an external transport error,
represented by its rendered `Display` text. -/
structure Hyper.Error where
  display : String
  deriving DecidableEq

/-- Modelled from the spec: `tower::BoxError`, an opaque boxed middleware
failure, represented by its rendered `Display` text. -/
structure Tower.BoxError where
  display : String
  deriving DecidableEq

/-- Modelled from the spec: `http::Uri`; only its textual rendering crosses
this boundary (`http::Uri`'s `Debug` delegates to `Display`, so `{proxy_url:?}`
prints the URI text itself, unquoted). -/
structure Uri where
  toString : String
  deriving DecidableEq

/-- Modelled from the spec: `std::string::FromUtf8Error`, represented by its
rendered `Display` text. -/
structure FromUtf8Error where
  display : String
  deriving DecidableEq

/-- Modelled from the spec: `std::io::Error` as raised while reading an event
stream, represented by its rendered `Display` text. -/
structure Io.Error where
  display : String
  deriving DecidableEq

/-- Modelled from the spec: `http::Error`, represented by its rendered
`Display` text. -/
structure Http.Error where
  display : String
  deriving DecidableEq

/-- Modelled from the spec: `serde_json::Error`, represented by its rendered
`Display` text. -/
structure SerdeJson.Error where
  display : String
  deriving DecidableEq

/-- Modelled from the spec: `kube_core::request::Error`, the request-build
failure, represented by its rendered `Display` text. -/
structure Request.Error where
  display : String
  deriving DecidableEq

/-- Modelled from the spec: `crate::config::InferConfigError`, represented by
its rendered `Display` text. -/
structure InferConfigError where
  display : String
  deriving DecidableEq

/-- Modelled from the spec: `crate::client::OpensslTlsError`, represented by
its rendered `Display` text. -/
structure OpensslTlsError where
  display : String
  deriving DecidableEq

/-- Modelled from the spec: `crate::client::RustlsTlsError`, represented by
its rendered `Display` text. -/
structure RustlsTlsError where
  display : String
  deriving DecidableEq

/-- Modelled from the spec: `crate::client::UpgradeConnectionError`,
represented by its rendered `Display` text. -/
structure UpgradeConnectionError where
  display : String
  deriving DecidableEq

/-- Modelled from the spec: `crate::client::AuthError`, represented by its
rendered `Display` text. -/
structure AuthError where
  display : String
  deriving DecidableEq

/-- The `DiscoveryError` enum of `error.rs`: five variants, each carrying one
descriptive `String`, no `#[source]` attribute on any of them. -/
inductive DiscoveryError : Type where
  | InvalidGroupVersion : String → DiscoveryError
  | MissingKind : String → DiscoveryError
  | MissingApiGroup : String → DiscoveryError
  | MissingResource : String → DiscoveryError
  | EmptyApiGroup : String → DiscoveryError
  deriving DecidableEq

/-- Display rendering of `DiscoveryError`, transcribed from its
`#[error("...")]` format strings. -/
def DiscoveryError.display : DiscoveryError → String
  | .InvalidGroupVersion s => "Invalid GroupVersion: " ++ s
  | .MissingKind s => "Missing Kind: " ++ s
  | .MissingApiGroup s => "Missing Api Group: " ++ s
  | .MissingResource s => "Missing Resource: " ++ s
  | .EmptyApiGroup s => "Empty Api Group: " ++ s

/-- The Cargo features that gate variants of `Error`: `client`,
`openssl-tls`, `rustls-tls`, `ws`, `unstable-client`. -/
structure Features where
  client : Bool
  opensslTls : Bool
  rustlsTls : Bool
  ws : Bool
  unstableClient : Bool
  deriving DecidableEq

/-- Rust `Debug` rendering of one character inside a `&str`, as used by the
`{protocol_feature:?}` format argument: quote, backslash and the common
control characters are escaped. -/
def escapeChar (c : Char) : String :=
  if c = '"' then "\\\""
  else if c = '\\' then "\\\\"
  else if c = '\n' then "\\n"
  else if c = '\t' then "\\t"
  else if c = '\r' then "\\r"
  else String.singleton c

/-- Rust `Debug` rendering of a `&str`: the escaped text between double
quotes. -/
def strDebug (s : String) : String :=
  "\"" ++ String.join (s.data.map escapeChar) ++ "\""

/-- Debug rendering of `http::Uri`: its `Debug` impl delegates to `Display`,
which prints the URI text. -/
def Uri.fmtDebug (u : Uri) : String := u.toString

/-- The `Error` enum of `error.rs`, indexed by the build's feature set `f`.
Constructors appear in source order; each `#[cfg(feature = "...")]` attribute
becomes a proof obligation that the feature flag is on. -/
inductive Error (f : Features) : Type where
  | Api : ErrorResponse → Error f
  | HyperError : f.client = true → Hyper.Error → Error f
  | Service : f.client = true → Tower.BoxError → Error f
  | ProxyProtocolUnsupported : Uri → Error f
  | ProxyProtocolDisabled : Uri → String → Error f
  | FromUtf8 : FromUtf8Error → Error f
  | LinesCodecMaxLineLengthExceeded : Error f
  | ReadEvents : Io.Error → Error f
  | HttpError : Http.Error → Error f
  | SerdeError : SerdeJson.Error → Error f
  | BuildRequest : Request.Error → Error f
  | InferConfig : InferConfigError → Error f
  | Discovery : DiscoveryError → Error f
  | OpensslTls : f.opensslTls = true → OpensslTlsError → Error f
  | RustlsTls : f.rustlsTls = true → RustlsTlsError → Error f
  | TlsRequired : Error f
  | UpgradeConnection : f.ws = true → UpgradeConnectionError → Error f
  | Auth : f.client = true → AuthError → Error f
  | RefResolve : f.unstableClient = true → String → Error f

/-- The tag (variant name) of an `Error` value. -/
inductive ErrorKind : Type where
  | api
  | hyperError
  | service
  | proxyProtocolUnsupported
  | proxyProtocolDisabled
  | fromUtf8
  | linesCodecMaxLineLengthExceeded
  | readEvents
  | httpError
  | serdeError
  | buildRequest
  | inferConfig
  | discovery
  | opensslTls
  | rustlsTls
  | tlsRequired
  | upgradeConnection
  | auth
  | refResolve
  deriving DecidableEq

/-- Kind projection of an `Error` value. -/
def Error.kind {f : Features} : Error f → ErrorKind
  | .Api _ => .api
  | .HyperError _ _ => .hyperError
  | .Service _ _ => .service
  | .ProxyProtocolUnsupported _ => .proxyProtocolUnsupported
  | .ProxyProtocolDisabled _ _ => .proxyProtocolDisabled
  | .FromUtf8 _ => .fromUtf8
  | .LinesCodecMaxLineLengthExceeded => .linesCodecMaxLineLengthExceeded
  | .ReadEvents _ => .readEvents
  | .HttpError _ => .httpError
  | .SerdeError _ => .serdeError
  | .BuildRequest _ => .buildRequest
  | .InferConfig _ => .inferConfig
  | .Discovery _ => .discovery
  | .OpensslTls _ _ => .opensslTls
  | .RustlsTls _ _ => .rustlsTls
  | .TlsRequired => .tlsRequired
  | .UpgradeConnection _ _ => .upgradeConnection
  | .Auth _ _ => .auth
  | .RefResolve _ _ => .refResolve

/-- The payload of an `Error` value: every field of the variant, the wrapped
source included. Rendering depends only on this together with the kind. -/
inductive PayloadVal : Type where
  | api : ErrorResponse → PayloadVal
  | hyper : Hyper.Error → PayloadVal
  | service : Tower.BoxError → PayloadVal
  | proxyUnsupported : Uri → PayloadVal
  | proxyDisabled : Uri → String → PayloadVal
  | fromUtf8 : FromUtf8Error → PayloadVal
  | linesCodec : PayloadVal
  | readEvents : Io.Error → PayloadVal
  | http : Http.Error → PayloadVal
  | serde : SerdeJson.Error → PayloadVal
  | buildRequest : Request.Error → PayloadVal
  | inferConfig : InferConfigError → PayloadVal
  | discovery : DiscoveryError → PayloadVal
  | openssl : OpensslTlsError → PayloadVal
  | rustls : RustlsTlsError → PayloadVal
  | tlsRequired : PayloadVal
  | upgrade : UpgradeConnectionError → PayloadVal
  | auth : AuthError → PayloadVal
  | refResolve : String → PayloadVal
  deriving DecidableEq

/-- Payload projection of an `Error` value. -/
def Error.payload {f : Features} : Error f → PayloadVal
  | .Api e => .api e
  | .HyperError _ e => .hyper e
  | .Service _ e => .service e
  | .ProxyProtocolUnsupported u => .proxyUnsupported u
  | .ProxyProtocolDisabled u s => .proxyDisabled u s
  | .FromUtf8 e => .fromUtf8 e
  | .LinesCodecMaxLineLengthExceeded => .linesCodec
  | .ReadEvents e => .readEvents e
  | .HttpError e => .http e
  | .SerdeError e => .serde e
  | .BuildRequest e => .buildRequest e
  | .InferConfig e => .inferConfig e
  | .Discovery d => .discovery d
  | .OpensslTls _ e => .openssl e
  | .RustlsTls _ e => .rustls e
  | .TlsRequired => .tlsRequired
  | .UpgradeConnection _ e => .upgrade e
  | .Auth _ e => .auth e
  | .RefResolve _ s => .refResolve s

/-- The possible values returned by `Error::source()`: one case per
underlying error type marked `#[source]` in `error.rs`. -/
inductive SourceVal : Type where
  | api : ErrorResponse → SourceVal
  | hyper : Hyper.Error → SourceVal
  | service : Tower.BoxError → SourceVal
  | fromUtf8 : FromUtf8Error → SourceVal
  | io : Io.Error → SourceVal
  | http : Http.Error → SourceVal
  | serde : SerdeJson.Error → SourceVal
  | buildRequest : Request.Error → SourceVal
  | inferConfig : InferConfigError → SourceVal
  | discovery : DiscoveryError → SourceVal
  | openssl : OpensslTlsError → SourceVal
  | rustls : RustlsTlsError → SourceVal
  | upgrade : UpgradeConnectionError → SourceVal
  | auth : AuthError → SourceVal
  deriving DecidableEq

/-- Display rendering of a source value: the wrapped error's own rendered
text. -/
def SourceVal.display : SourceVal → String
  | .api e => e.display
  | .hyper e => e.display
  | .service e => e.display
  | .fromUtf8 e => e.display
  | .io e => e.display
  | .http e => e.display
  | .serde e => e.display
  | .buildRequest e => e.display
  | .inferConfig e => e.display
  | .discovery d => d.display
  | .openssl e => e.display
  | .rustls e => e.display
  | .upgrade e => e.display
  | .auth e => e.display

/-- The `source()` accessor that `thiserror` derives for `Error`: variants
whose field is marked `#[source]` return it, the others return `None`.
(`RefResolve` carries a plain `String`, not a source.) -/
def Error.source {f : Features} : Error f → Option SourceVal
  | .Api e => some (.api e)
  | .HyperError _ e => some (.hyper e)
  | .Service _ e => some (.service e)
  | .ProxyProtocolUnsupported _ => none
  | .ProxyProtocolDisabled _ _ => none
  | .FromUtf8 e => some (.fromUtf8 e)
  | .LinesCodecMaxLineLengthExceeded => none
  | .ReadEvents e => some (.io e)
  | .HttpError e => some (.http e)
  | .SerdeError e => some (.serde e)
  | .BuildRequest e => some (.buildRequest e)
  | .InferConfig e => some (.inferConfig e)
  | .Discovery d => some (.discovery d)
  | .OpensslTls _ e => some (.openssl e)
  | .RustlsTls _ e => some (.rustls e)
  | .TlsRequired => none
  | .UpgradeConnection _ e => some (.upgrade e)
  | .Auth _ e => some (.auth e)
  | .RefResolve _ _ => none

/-- The `source()` accessor that `thiserror` derives for `DiscoveryError`:
no variant has a `#[source]` field, so it is constantly `None`. -/
def DiscoveryError.source : DiscoveryError → Option SourceVal
  | _ => none

/-- Display rendering of `Error`, transcribed from the `#[error("...")]`
format strings of `error.rs` (right-associated concatenation). -/
def Error.display {f : Features} : Error f → String
  | .Api e => "ApiError: " ++ (e.display ++ (" (" ++ (e.debug ++ ")")))
  | .HyperError _ e => "HyperError: " ++ e.display
  | .Service _ e => "ServiceError: " ++ e.display
  | .ProxyProtocolUnsupported u =>
      "configured proxy " ++ (u.fmtDebug ++ " uses an unsupported protocol")
  | .ProxyProtocolDisabled u feat =>
      "configured proxy " ++
        (u.fmtDebug ++ (" requires the disabled feature " ++ strDebug feat))
  | .FromUtf8 e => "UTF-8 Error: " ++ e.display
  | .LinesCodecMaxLineLengthExceeded => "Error finding newline character"
  | .ReadEvents e => "Error reading events stream: " ++ e.display
  | .HttpError e => "HttpError: " ++ e.display
  | .SerdeError e => "Error deserializing response: " ++ e.display
  | .BuildRequest e => "Failed to build request: " ++ e.display
  | .InferConfig e => "Failed to infer configuration: " ++ e.display
  | .Discovery d => "Error from discovery: " ++ d.display
  | .OpensslTls _ e => "openssl tls error: " ++ e.display
  | .RustlsTls _ e => "rustls tls error: " ++ e.display
  | .TlsRequired => "TLS required but no TLS stack selected"
  | .UpgradeConnection _ e =>
      "failed to upgrade to a WebSocket connection: " ++ e.display
  | .Auth _ e => "auth error: " ++ e.display
  | .RefResolve _ s => "Reference resolve error: " ++ s

/-- A literal piece of each variant's format string that no other variant's
identifier equals: the leading literal where the format string starts with
one, the full literal segment next to the interpolation otherwise. -/
def kindId : ErrorKind → String
  | .api => "ApiError: "
  | .hyperError => "HyperError: "
  | .service => "ServiceError: "
  | .proxyProtocolUnsupported => " uses an unsupported protocol"
  | .proxyProtocolDisabled => " requires the disabled feature "
  | .fromUtf8 => "UTF-8 Error: "
  | .linesCodecMaxLineLengthExceeded => "Error finding newline character"
  | .readEvents => "Error reading events stream: "
  | .httpError => "HttpError: "
  | .serdeError => "Error deserializing response: "
  | .buildRequest => "Failed to build request: "
  | .inferConfig => "Failed to infer configuration: "
  | .discovery => "Error from discovery: "
  | .opensslTls => "openssl tls error: "
  | .rustlsTls => "rustls tls error: "
  | .tlsRequired => "TLS required but no TLS stack selected"
  | .upgradeConnection => "failed to upgrade to a WebSocket connection: "
  | .auth => "auth error: "
  | .refResolve => "Reference resolve error: "

/-- All nineteen variant tags of `Error`. -/
def allKinds : List ErrorKind :=
  [.api, .hyperError, .service, .proxyProtocolUnsupported,
   .proxyProtocolDisabled, .fromUtf8, .linesCodecMaxLineLengthExceeded,
   .readEvents, .httpError, .serdeError, .buildRequest, .inferConfig,
   .discovery, .opensslTls, .rustlsTls, .tlsRequired, .upgradeConnection,
   .auth, .refResolve]

/-- Substring containment on strings. -/
def strContains (hay needle : String) : Prop :=
  ∃ pre post : String, pre ++ needle ++ post = hay

/-- When an `Error` wraps a source, its rendered message contains the
source's own rendered text. -/
def includesSourceText {f : Features} (e : Error f) : Prop :=
  match e.source with
  | some s => strContains e.display s.display
  | none => True

/-- The feature set with every Cargo feature enabled. -/
def allOn : Features := ⟨true, true, true, true, true⟩

/-- The feature set with every Cargo feature disabled. -/
def allOff : Features := ⟨false, false, false, false, false⟩

theorem strContains_pre (b c : String) : strContains (b ++ c) b :=
  ⟨"", c, rfl⟩

theorem strContains_post (a b : String) : strContains (a ++ b) b :=
  ⟨a, "", by simp⟩

theorem strContains_self (b : String) : strContains b b :=
  ⟨"", "", by simp⟩

theorem strContains_mid (a b c : String) : strContains (a ++ (b ++ c)) b :=
  ⟨a, c, String.append_assoc a b c⟩

theorem strContains_last (a c b : String) : strContains (a ++ (c ++ b)) b :=
  ⟨a ++ c, "", by simp [String.append_assoc]⟩

theorem strContains_mid2 (a c b d : String) :
    strContains (a ++ (c ++ (b ++ d))) b :=
  ⟨a ++ c, d, by simp [String.append_assoc]⟩

/-- C1: for every `Error` variant that wraps a `#[source]` value (`Api`,
`HyperError`, `Service`, `FromUtf8`, `ReadEvents`, `HttpError`, `SerdeError`,
`BuildRequest`, `InferConfig`, `Discovery`, `OpensslTls`, `RustlsTls`,
`UpgradeConnection`, `Auth`), constructing the variant from an underlying
error and then retrieving the source yields the original underlying value
unchanged. -/
theorem c1_source_roundtrip (f : Features)
    (hc : f.client = true) (ho : f.opensslTls = true) (hr : f.rustlsTls = true)
    (hw : f.ws = true)
    (e₁ : ErrorResponse) (e₂ : Hyper.Error) (e₃ : Tower.BoxError)
    (e₄ : FromUtf8Error) (e₅ : Io.Error) (e₆ : Http.Error)
    (e₇ : SerdeJson.Error) (e₈ : Request.Error) (e₉ : InferConfigError)
    (e₁₀ : DiscoveryError) (e₁₁ : OpensslTlsError) (e₁₂ : RustlsTlsError)
    (e₁₃ : UpgradeConnectionError) (e₁₄ : AuthError) :
    (Error.Api e₁ : Error f).source = some (.api e₁) ∧
    (Error.HyperError hc e₂).source = some (.hyper e₂) ∧
    (Error.Service hc e₃).source = some (.service e₃) ∧
    (Error.FromUtf8 e₄ : Error f).source = some (.fromUtf8 e₄) ∧
    (Error.ReadEvents e₅ : Error f).source = some (.io e₅) ∧
    (Error.HttpError e₆ : Error f).source = some (.http e₆) ∧
    (Error.SerdeError e₇ : Error f).source = some (.serde e₇) ∧
    (Error.BuildRequest e₈ : Error f).source = some (.buildRequest e₈) ∧
    (Error.InferConfig e₉ : Error f).source = some (.inferConfig e₉) ∧
    (Error.Discovery e₁₀ : Error f).source = some (.discovery e₁₀) ∧
    (Error.OpensslTls ho e₁₁).source = some (.openssl e₁₁) ∧
    (Error.RustlsTls hr e₁₂).source = some (.rustls e₁₂) ∧
    (Error.UpgradeConnection hw e₁₃).source = some (.upgrade e₁₃) ∧
    (Error.Auth hc e₁₄).source = some (.auth e₁₄) :=
  ⟨rfl, rfl, rfl, rfl, rfl, rfl, rfl, rfl, rfl, rfl, rfl, rfl, rfl, rfl⟩

/-- Witness for C1 at the all-features build and concrete payloads. -/
theorem c1_witness :
    (Error.Api ⟨"a1", "a2"⟩ : Error allOn).source = some (.api ⟨"a1", "a2"⟩) ∧
    (Error.HyperError rfl ⟨"b"⟩ : Error allOn).source = some (.hyper ⟨"b"⟩) ∧
    (Error.Service rfl ⟨"c"⟩ : Error allOn).source = some (.service ⟨"c"⟩) ∧
    (Error.FromUtf8 ⟨"d"⟩ : Error allOn).source = some (.fromUtf8 ⟨"d"⟩) ∧
    (Error.ReadEvents ⟨"e"⟩ : Error allOn).source = some (.io ⟨"e"⟩) ∧
    (Error.HttpError ⟨"f"⟩ : Error allOn).source = some (.http ⟨"f"⟩) ∧
    (Error.SerdeError ⟨"g"⟩ : Error allOn).source = some (.serde ⟨"g"⟩) ∧
    (Error.BuildRequest ⟨"h"⟩ : Error allOn).source = some (.buildRequest ⟨"h"⟩) ∧
    (Error.InferConfig ⟨"i"⟩ : Error allOn).source = some (.inferConfig ⟨"i"⟩) ∧
    (Error.Discovery (.MissingKind "j") : Error allOn).source =
      some (.discovery (.MissingKind "j")) ∧
    (Error.OpensslTls rfl ⟨"k"⟩ : Error allOn).source = some (.openssl ⟨"k"⟩) ∧
    (Error.RustlsTls rfl ⟨"l"⟩ : Error allOn).source = some (.rustls ⟨"l"⟩) ∧
    (Error.UpgradeConnection rfl ⟨"m"⟩ : Error allOn).source =
      some (.upgrade ⟨"m"⟩) ∧
    (Error.Auth rfl ⟨"n"⟩ : Error allOn).source = some (.auth ⟨"n"⟩) :=
  c1_source_roundtrip allOn rfl rfl rfl rfl ⟨"a1", "a2"⟩ ⟨"b"⟩ ⟨"c"⟩ ⟨"d"⟩
    ⟨"e"⟩ ⟨"f"⟩ ⟨"g"⟩ ⟨"h"⟩ ⟨"i"⟩ (.MissingKind "j") ⟨"k"⟩ ⟨"l"⟩ ⟨"m"⟩ ⟨"n"⟩

/-- C2: every variant's rendered message contains an identifier (a literal
piece of its format string) that differs from every other variant's
identifier, and when the variant wraps a source the message also contains
the source's own rendered text. -/
theorem c2_display_identifier {f : Features} (e : Error f) (k : ErrorKind) :
    strContains e.display (kindId e.kind) ∧ includesSourceText e ∧
    k ∈ allKinds ∧ (allKinds.map kindId).Nodup := by
  refine ⟨?_, ?_, ?_, by decide⟩
  · cases e with
    | Api e => exact strContains_pre _ _
    | HyperError h e => exact strContains_pre _ _
    | Service h e => exact strContains_pre _ _
    | ProxyProtocolUnsupported u => exact strContains_last _ _ _
    | ProxyProtocolDisabled u s => exact strContains_mid2 _ _ _ _
    | FromUtf8 e => exact strContains_pre _ _
    | LinesCodecMaxLineLengthExceeded => exact strContains_self _
    | ReadEvents e => exact strContains_pre _ _
    | HttpError e => exact strContains_pre _ _
    | SerdeError e => exact strContains_pre _ _
    | BuildRequest e => exact strContains_pre _ _
    | InferConfig e => exact strContains_pre _ _
    | Discovery d => exact strContains_pre _ _
    | OpensslTls h e => exact strContains_pre _ _
    | RustlsTls h e => exact strContains_pre _ _
    | TlsRequired => exact strContains_self _
    | UpgradeConnection h e => exact strContains_pre _ _
    | Auth h e => exact strContains_pre _ _
    | RefResolve h s => exact strContains_pre _ _
  · cases e with
    | Api e => exact strContains_mid _ _ _
    | HyperError h e => exact strContains_post _ _
    | Service h e => exact strContains_post _ _
    | ProxyProtocolUnsupported u => trivial
    | ProxyProtocolDisabled u s => trivial
    | FromUtf8 e => exact strContains_post _ _
    | LinesCodecMaxLineLengthExceeded => trivial
    | ReadEvents e => exact strContains_post _ _
    | HttpError e => exact strContains_post _ _
    | SerdeError e => exact strContains_post _ _
    | BuildRequest e => exact strContains_post _ _
    | InferConfig e => exact strContains_post _ _
    | Discovery d => exact strContains_post _ _
    | OpensslTls h e => exact strContains_post _ _
    | RustlsTls h e => exact strContains_post _ _
    | TlsRequired => trivial
    | UpgradeConnection h e => exact strContains_post _ _
    | Auth h e => exact strContains_post _ _
    | RefResolve h s => trivial
  · cases k <;> decide

/-- C3: rendering is deterministic: two `Error` values of the same variant
with equal payloads (wrapped sources included) render identical display
messages. -/
theorem c3_display_deterministic {f : Features} (e₁ e₂ : Error f)
    (hk : e₁.kind = e₂.kind) (hp : e₁.payload = e₂.payload) :
    e₁.display = e₂.display := by
  cases e₁ <;> cases e₂ <;> simp_all [Error.kind, Error.payload, Error.display]

/-- Witness for C3 at two identically built concrete values. -/
theorem c3_witness :
    (Error.SerdeError ⟨"eof"⟩ : Error allOff).display =
      (Error.SerdeError ⟨"eof"⟩ : Error allOff).display :=
  c3_display_deterministic (Error.SerdeError ⟨"eof"⟩) (Error.SerdeError ⟨"eof"⟩)
    rfl rfl

/-- C4: the twelve core variants exist in every build, while each
capability-gated variant is inhabited exactly when its feature flag is on:
with the flag off, no value of the type has that variant's kind, so such a
value can never be constructed, matched or observed. -/
theorem c4_capability_gating (f : Features) :
    (∃ e : Error f, e.kind = .api) ∧
    (∃ e : Error f, e.kind = .fromUtf8) ∧
    (∃ e : Error f, e.kind = .linesCodecMaxLineLengthExceeded) ∧
    (∃ e : Error f, e.kind = .readEvents) ∧
    (∃ e : Error f, e.kind = .httpError) ∧
    (∃ e : Error f, e.kind = .serdeError) ∧
    (∃ e : Error f, e.kind = .buildRequest) ∧
    (∃ e : Error f, e.kind = .inferConfig) ∧
    (∃ e : Error f, e.kind = .discovery) ∧
    (∃ e : Error f, e.kind = .tlsRequired) ∧
    (∃ e : Error f, e.kind = .proxyProtocolUnsupported) ∧
    (∃ e : Error f, e.kind = .proxyProtocolDisabled) ∧
    ((∃ e : Error f, e.kind = .hyperError) ↔ f.client = true) ∧
    ((∃ e : Error f, e.kind = .service) ↔ f.client = true) ∧
    ((∃ e : Error f, e.kind = .auth) ↔ f.client = true) ∧
    ((∃ e : Error f, e.kind = .opensslTls) ↔ f.opensslTls = true) ∧
    ((∃ e : Error f, e.kind = .rustlsTls) ↔ f.rustlsTls = true) ∧
    ((∃ e : Error f, e.kind = .upgradeConnection) ↔ f.ws = true) ∧
    ((∃ e : Error f, e.kind = .refResolve) ↔ f.unstableClient = true) := by
  refine ⟨⟨.Api ⟨"", ""⟩, rfl⟩, ⟨.FromUtf8 ⟨""⟩, rfl⟩,
    ⟨.LinesCodecMaxLineLengthExceeded, rfl⟩, ⟨.ReadEvents ⟨""⟩, rfl⟩,
    ⟨.HttpError ⟨""⟩, rfl⟩, ⟨.SerdeError ⟨""⟩, rfl⟩,
    ⟨.BuildRequest ⟨""⟩, rfl⟩, ⟨.InferConfig ⟨""⟩, rfl⟩,
    ⟨.Discovery (.MissingKind ""), rfl⟩, ⟨.TlsRequired, rfl⟩,
    ⟨.ProxyProtocolUnsupported ⟨""⟩, rfl⟩,
    ⟨.ProxyProtocolDisabled ⟨""⟩ "", rfl⟩,
    ⟨?_, fun h => ⟨.HyperError h ⟨""⟩, rfl⟩⟩,
    ⟨?_, fun h => ⟨.Service h ⟨""⟩, rfl⟩⟩,
    ⟨?_, fun h => ⟨.Auth h ⟨""⟩, rfl⟩⟩,
    ⟨?_, fun h => ⟨.OpensslTls h ⟨""⟩, rfl⟩⟩,
    ⟨?_, fun h => ⟨.RustlsTls h ⟨""⟩, rfl⟩⟩,
    ⟨?_, fun h => ⟨.UpgradeConnection h ⟨""⟩, rfl⟩⟩,
    ⟨?_, fun h => ⟨.RefResolve h "", rfl⟩⟩⟩ <;>
  · rintro ⟨e, he⟩
    cases e <;> simp_all [Error.kind]

/-- C5: `DiscoveryError` is exactly the five string-carrying variants
`InvalidGroupVersion`, `MissingKind`, `MissingApiGroup`, `MissingResource`,
`EmptyApiGroup`, pairwise distinct; it is a leaf (its source accessor always
yields `none`), and `Error::Discovery` wraps it as its source unchanged. -/
theorem c5_discovery_leaf (f : Features) (d : DiscoveryError) :
    d.source = none ∧
    (Error.Discovery d : Error f).source = some (SourceVal.discovery d) ∧
    ((∃ s, d = .InvalidGroupVersion s) ∨ (∃ s, d = .MissingKind s) ∨
     (∃ s, d = .MissingApiGroup s) ∨ (∃ s, d = .MissingResource s) ∨
     (∃ s, d = .EmptyApiGroup s)) ∧
    ([DiscoveryError.InvalidGroupVersion "g", .MissingKind "g",
      .MissingApiGroup "g", .MissingResource "g",
      .EmptyApiGroup "g"] : List DiscoveryError).Nodup := by
  refine ⟨rfl, rfl, ?_, by decide⟩
  cases d with
  | InvalidGroupVersion s => exact Or.inl ⟨s, rfl⟩
  | MissingKind s => exact Or.inr (Or.inl ⟨s, rfl⟩)
  | MissingApiGroup s => exact Or.inr (Or.inr (Or.inl ⟨s, rfl⟩))
  | MissingResource s => exact Or.inr (Or.inr (Or.inr (Or.inl ⟨s, rfl⟩)))
  | EmptyApiGroup s => exact Or.inr (Or.inr (Or.inr (Or.inr ⟨s, rfl⟩)))

/-- C6: rendering `ProxyProtocolDisabled` with proxy URL
`socks5://h:1080` and feature name `socks5` produces a message that
literally contains both the proxy URL and the substring `socks5`. -/
theorem c6_proxy_disabled_message :
    strContains (Error.ProxyProtocolDisabled ⟨"socks5://h:1080"⟩ "socks5" :
      Error allOff).display "socks5://h:1080" ∧
    strContains (Error.ProxyProtocolDisabled ⟨"socks5://h:1080"⟩ "socks5" :
      Error allOff).display "socks5" :=
  ⟨⟨"configured proxy ", " requires the disabled feature \"socks5\"",
    by decide⟩,
   ⟨"configured proxy ", "://h:1080 requires the disabled feature \"socks5\"",
    by decide⟩⟩

/-- C7: wrapping `DiscoveryError::MissingResource("pods")` into
`Error::Discovery` renders a message containing both the discovery marker
and the substring `pods`. -/
theorem c7_discovery_message :
    strContains (Error.Discovery (DiscoveryError.MissingResource "pods") :
      Error allOff).display "Error from discovery" ∧
    strContains (Error.Discovery (DiscoveryError.MissingResource "pods") :
      Error allOff).display "pods" :=
  ⟨⟨"", ": Missing Resource: pods", by decide⟩,
   ⟨"Error from discovery: Missing Resource: ", "", by decide⟩⟩

/-- C8: `LinesCodecMaxLineLengthExceeded` carries no payload (every value of
that kind is the bare constructor) and always renders the same fixed literal
message. -/
theorem c8_lines_codec_fixed {f : Features} (e : Error f)
    (h : e.kind = .linesCodecMaxLineLengthExceeded) :
    e = .LinesCodecMaxLineLengthExceeded ∧
    e.display = "Error finding newline character" := by
  cases e <;> simp_all [Error.kind, Error.display]

/-- Witness for C8 at the no-features build. -/
theorem c8_witness :
    (Error.LinesCodecMaxLineLengthExceeded : Error allOff) =
      .LinesCodecMaxLineLengthExceeded ∧
    (Error.LinesCodecMaxLineLengthExceeded : Error allOff).display =
      "Error finding newline character" :=
  c8_lines_codec_fixed Error.LinesCodecMaxLineLengthExceeded rfl

/-- C9: `TlsRequired` carries no payload and no source (every value of that
kind is the bare constructor and its source accessor yields `none`), and
always renders exactly the fixed literal message. -/
theorem c9_tls_required_fixed {f : Features} (e : Error f)
    (h : e.kind = .tlsRequired) :
    e = .TlsRequired ∧
    e.display = "TLS required but no TLS stack selected" ∧
    e.source = none := by
  cases e <;> simp_all [Error.kind, Error.display, Error.source]

/-- Witness for C9 at the no-features build. -/
theorem c9_witness :
    (Error.TlsRequired : Error allOff) = .TlsRequired ∧
    (Error.TlsRequired : Error allOff).display =
      "TLS required but no TLS stack selected" ∧
    (Error.TlsRequired : Error allOff).source = none :=
  c9_tls_required_fixed Error.TlsRequired rfl

/-- C10: rendering `Error::Api` includes its payload twice, first via the
payload's display rendering and then, in parentheses, via its debug
rendering, in the shape `ApiError: <display> (<debug>)`. -/
theorem c10_api_display_shape {f : Features} (e : ErrorResponse) :
    (Error.Api e : Error f).display =
      "ApiError: " ++ e.display ++ " (" ++ e.debug ++ ")" := by
  simp [Error.display, String.append_assoc]

end KubeClient
